import Mathlib

set_option maxHeartbeats 1000000

/-
  Shallow embedding of the BenchMark-Suite tool-orchestration clients
  (src/client.py, src/client2.py, src/client3.py) and proofs of the
  specification claims about them.

  External collaborators (the Gemini model service, `json.loads`, and
  `Path.expanduser().resolve()`) are abstracted as function parameters;
  everything that the repository's own code does is translated line by
  line from the source.
-/

namespace BenchSuite

/-- JSON values, modelling Python `json` payloads and `dict[str, Any]`. -/
inductive Json where
  | null
  | bool (b : Bool)
  | num (n : Int)
  | str (s : String)
  | arr (xs : List Json)
  | obj (kvs : List (String × Json))

/-! ### Python string primitives

Computable character-level models of the Python string methods the clients
use, so that concrete runs reduce inside the kernel. -/

/-- Python `s.endswith(suffix)`. -/
def strEndsWith (s suffix : String) : Bool :=
  suffix.data.isSuffixOf s.data

/-- Python `s.strip()`: drop leading and trailing whitespace. -/
def pyStrip (s : String) : String :=
  ⟨((s.data.dropWhile Char.isWhitespace).reverse.dropWhile Char.isWhitespace).reverse⟩

/-- Python `s.lower()`. -/
def pyLower (s : String) : String :=
  ⟨s.data.map Char.toLower⟩

/-- Token counts reported by one model reply (`response.usage_metadata`). -/
structure UsageMetadata where
  prompt_token_count : Nat
  candidates_token_count : Nat

/-- Raw arguments of a model function call: either a serialized string or an
already structured mapping, as in `json.loads(raw_args) if isinstance(raw_args, str) else raw_args`. -/
inductive RawArgs where
  | ser (s : String)
  | struct (m : List (String × Json))

/-- A `function_call` field of a reply part. -/
structure FunctionCall where
  name : String
  args : RawArgs

/-- One part of a candidate's content: optional `function_call`, optional `text`. -/
structure Part where
  function_call : Option FunctionCall
  text : Option String

/-- Candidate content: optional structured `parts` plus an optional flat `text` field. -/
structure Content where
  parts : Option (List Part)
  text : Option String

/-- One reply candidate. -/
structure Candidate where
  content : Content

/-- One model-service reply. -/
structure Response where
  candidates : List Candidate
  usage_metadata : UsageMetadata

/-- Result dict of `MCPClient.process_query`: the `text` value is always a string. -/
structure TextResult where
  text : String
  prompt_token_count : Nat
  response_token_count : Nat
deriving DecidableEq

/-- Result dict of `GeminiClient.process_query` and `SimpleChatClient.process_query`:
the `text` value is a part's `.text` attribute, which may be absent (`None`). -/
structure OptTextResult where
  text : Option String
  prompt_token_count : Nat
  response_token_count : Nat
deriving DecidableEq

/-! ## Local file tools of client2.py -/

/-- An absolute, fully resolved filesystem path, as its list of segments. -/
abbrev AbsPath := List String

/-- Contents of a file: either UTF-8 decodable text, or binary data together
with its base64 rendering (`read_file` returns the latter on decode failure). -/
inductive FileData where
  | textual (s : String)
  | binary (b64 : String)
deriving DecidableEq

/-- The filesystem visible to client2's local tools. -/
structure FileSys where
  files : List (AbsPath × FileData)
deriving DecidableEq

def FileSys.lookup (fs : FileSys) (p : AbsPath) : Option FileData :=
  fs.files.lookup p

/-- Overwriting update, as performed by `path.write_text`. -/
def FileSys.set (fs : FileSys) (p : AbsPath) (d : FileData) : FileSys :=
  ⟨(p, d) :: fs.files⟩

/-- Rendering of a resolved path, as in the f-string `f"Access denied: {resolved}"`. -/
def pathStr (p : AbsPath) : String :=
  "/" ++ String.intercalate "/" p

/-- Embedding of `normalize_path` (client2.py 17-22): expand and resolve the path (abstracted as
`resolve`), then reject it unless it lies under `ALLOWED_BASE` (here `base`). -/
def normalize_path (resolve : String → AbsPath) (base : AbsPath)
    (file_path : String) : Except String AbsPath :=
  let resolved := resolve file_path
  if base.isPrefixOf resolved then .ok resolved
  else .error ("Access denied: " ++ pathStr resolved)

/-- Embedding of `read_file` (client2.py 24-30): normalize, read bytes, decode UTF-8 or fall back
to base64. A missing file raises (`FileNotFoundError`), modelled as `.error`. -/
def read_file (resolve : String → AbsPath) (base : AbsPath) (fs : FileSys)
    (file_path : String) : Except String String :=
  match normalize_path resolve base file_path with
  | .error e => .error e
  | .ok path =>
    match fs.lookup path with
    | none => .error "FileNotFoundError"
    | some (.textual s) => .ok s
    | some (.binary b64) => .ok b64

/-- Embedding of `write_file` (client2.py 32-37): normalize, read the existing text if the file
exists (raising on a non-UTF-8 file), then append `content`. -/
def write_file (resolve : String → AbsPath) (base : AbsPath) (fs : FileSys)
    (file_path : String) (content : String) : Except String (String × FileSys) :=
  match normalize_path resolve base file_path with
  | .error e => .error e
  | .ok path =>
    match fs.lookup path with
    | none =>
      .ok ("Write successful", fs.set path (.textual ("" ++ content)))
    | some (.textual existing) =>
      .ok ("Write successful", fs.set path (.textual (existing ++ content)))
    | some (.binary _) => .error "UnicodeDecodeError"

/-- Embedding of `search_file` (client2.py 39-41): normalize the directory, then list every file
strictly below it whose final segment ends with `extension` (`rglob`). -/
def search_file (resolve : String → AbsPath) (base : AbsPath) (fs : FileSys)
    (extension : String) (search_dir : String) : Except String (List String) :=
  match normalize_path resolve base search_dir with
  | .error e => .error e
  | .ok dirp =>
    .ok ((fs.files.filter
          (fun kv => dirp.isPrefixOf kv.1 && kv.1.length > dirp.length
            && strEndsWith (kv.1.getLastD "") extension)).map
          (fun kv => pathStr kv.1))

/-! ## client2.py: GeminiClient -/

/-- Value returned by one of client2's local tool functions: `read_file` and
`write_file` return a string, `search_file` returns a list of strings, and the
unknown-function branch returns the placeholder string. -/
inductive ToolResultVal where
  | s (v : String)
  | lst (vs : List String)
deriving DecidableEq

/-- Normalization of function-call arguments in client2.py, line 112:
`args = json.loads(raw_args) if isinstance(raw_args, str) else raw_args`,
where the result must be a mapping to be splatted as `**args`. -/
def normalizeArgs (jsonLoads : String → Option Json) :
    RawArgs → Except String (List (String × Json))
  | .struct m => .ok m
  | .ser s =>
    match jsonLoads s with
    | some (.obj m) => .ok m
    | some _ => .error "TypeError"
    | none => .error "JSONDecodeError"

/-- Keyword-argument splat check: every supplied key must be a parameter name. -/
def onlyKeys (args : List (String × Json)) (allowed : List String) : Bool :=
  args.all (fun kv => allowed.contains kv.1)

/-- Fetch a required string-valued keyword argument, raising `TypeError` when it
is missing or not a string (as splatting into the tool's signature would). -/
def getStrArg (args : List (String × Json)) (k : String) : Except String String :=
  match args.lookup k with
  | some (.str s) => .ok s
  | some _ => .error "TypeError"
  | none => .error "TypeError"

/-- The tool dispatch inside `GeminiClient.process_query` (client2.py 115-122):
route the call to `read_file` / `write_file` / `search_file`, or produce the
`"Unknown function: ..."` placeholder string for any other name. -/
def dispatchLocal (resolve : String → AbsPath) (base : AbsPath) (fs : FileSys)
    (fname : String) (args : List (String × Json)) :
    Except String (ToolResultVal × FileSys) :=
  if fname = "read_file" then
    if onlyKeys args ["file_path"] then do
      let fp ← getStrArg args "file_path"
      let s ← read_file resolve base fs fp
      .ok (.s s, fs)
    else .error "TypeError"
  else if fname = "write_file" then
    if onlyKeys args ["file_path", "content"] then do
      let fp ← getStrArg args "file_path"
      let c ← getStrArg args "content"
      let (msg, fs2) ← write_file resolve base fs fp c
      .ok (.s msg, fs2)
    else .error "TypeError"
  else if fname = "search_file" then
    if onlyKeys args ["extension", "search_dir"] then do
      let ext ← getStrArg args "extension"
      let dir ← match args.lookup "search_dir" with
        | none => Except.ok "."
        | some (.str d) => Except.ok d
        | some _ => Except.error "TypeError"
      let r ← search_file resolve base fs ext dir
      .ok (.lst r, fs)
    else .error "TypeError"
  else
    .ok (.s ("Unknown function: " ++ fname), fs)

/-- Quote a string as `json.dumps` renders it (escaping elided). -/
def dq (s : String) : String := "\"" ++ s ++ "\""

/-- The follow-up request content of client2.py line 128:
`json.dumps({"name": fname, "result": result})`. -/
def dumpsNameResult (name : String) (result : ToolResultVal) : String :=
  "\x7b\"name\": " ++ dq name ++ ", \"result\": " ++
    (match result with
     | .s v => dq v
     | .lst vs => "[" ++ String.intercalate ", " (vs.map dq) ++ "]") ++ "\x7d"

/-- The attribute chain `response.candidates[0].content.parts[0]` used by
client2.py (line 106, 138) and client3.py (line 35): indexing an empty list
raises `IndexError`, and subscripting an absent `parts` raises `TypeError`. -/
def firstPart (r : Response) : Except String Part :=
  match r.candidates.get? 0 with
  | none => .error "IndexError"
  | some cand =>
    match cand.content.parts with
    | none => .error "TypeError"
    | some ps =>
      match ps.get? 0 with
      | none => .error "IndexError"
      | some p => .ok p

/-- Embedding of `GeminiClient.process_query` (client2.py 88-148). The model service is the
function `svc`, taking the round-trip index and the request contents; `jsonLoads`
models `json.loads`, `resolve`/`base` model path resolution and `ALLOWED_BASE`,
and `fs` is the filesystem state threaded through the local tools. -/
def GeminiClient.process_query (svc : Nat → List String → Response)
    (jsonLoads : String → Option Json) (resolve : String → AbsPath)
    (base : AbsPath) (fs : FileSys) (query : String) :
    Except String (OptTextResult × FileSys) :=
  let response := svc 0 [query]
  let prompt_tokens := response.usage_metadata.prompt_token_count
  let resp_tokens := response.usage_metadata.candidates_token_count
  match firstPart response with
  | .error e => .error e
  | .ok msg =>
    match msg.function_call with
    | some fc =>
      match normalizeArgs jsonLoads fc.args with
      | .error e => .error e
      | .ok args =>
        match dispatchLocal resolve base fs fc.name args with
        | .error e => .error e
        | .ok (result, fs2) =>
          let follow := svc 1 [dumpsNameResult fc.name result]
          match firstPart follow with
          | .error e => .error e
          | .ok fmsg =>
            .ok ({ text := fmsg.text,
                   prompt_token_count :=
                     prompt_tokens + follow.usage_metadata.prompt_token_count,
                   response_token_count :=
                     resp_tokens + follow.usage_metadata.candidates_token_count },
                 fs2)
    | none =>
      .ok ({ text := msg.text,
             prompt_token_count := prompt_tokens,
             response_token_count := resp_tokens }, fs)

/-! ## client.py: MCPClient -/

/-- A tool descriptor as returned by the MCP session's `list_tools`:
`inputSchema` is an arbitrary `dict[str, Any]`. -/
structure ToolInfo where
  name : String
  description : String
  inputSchema : List (String × Json)

/-- Python `d.get(k, default)` on a JSON object. -/
def dictGet (d : List (String × Json)) (k : String) (dflt : Json) : Json :=
  (d.lookup k).getD dflt

/-- The translated function declaration built by client.py 49-60. -/
structure ToolDesc where
  name : String
  description : String
  ptype : Json
  properties : List (String × (Json × Json))
  required : Json

/-- Translation of one descriptor (client.py 49-60). Iterating `.items()` over
a non-mapping `properties` value, or calling `.get` on a non-mapping parameter
entry, raises `AttributeError`. -/
def translateTool (t : ToolInfo) : Except String ToolDesc := do
  let props ← match dictGet t.inputSchema "properties" (.obj []) with
    | .obj kvs => Except.ok kvs
    | _ => Except.error "AttributeError"
  let tprops ← props.mapM (fun kv =>
    match kv.2 with
    | .obj vm =>
      Except.ok (kv.1, (dictGet vm "type" (.str "string"),
                        dictGet vm "description" (.str "")))
    | _ => Except.error "AttributeError")
  .ok { name := t.name
        description := t.description
        ptype := dictGet t.inputSchema "type" (.str "object")
        properties := tprops
        required := dictGet t.inputSchema "required" (.arr []) }

/-- Translation of the whole catalog, the `tool_descs` loop of client.py 47-60 over the whole catalog. -/
def buildToolDescs (tools : List ToolInfo) : Except String (List ToolDesc) :=
  tools.mapM translateTool

/-- One content item of an MCP `call_tool` response; `text` is absent for
non-text items (`getattr(..., 'text', '')` then yields the default). -/
structure ToolContentItem where
  text : Option String

/-- An MCP `call_tool` response. -/
structure ToolResponse where
  content : List ToolContentItem

/-- The MCP session as the orchestrator sees it: a tool catalog and a
`call_tool` operation, whose `.error` outcome models a raised exception
(for example `McpError` for an unregistered tool name). -/
structure Session where
  tools : List ToolInfo
  callTool : String → Json → Except String ToolResponse

/-- Normalization of function-call arguments in client.py line 84, where the
parsed value is passed to `call_tool` whatever its shape. -/
def normalizeArgsJson (jsonLoads : String → Option Json) :
    RawArgs → Except String Json
  | .struct m => .ok (.obj m)
  | .ser s =>
    match jsonLoads s with
    | some j => .ok j
    | none => .error "JSONDecodeError"

/-- Python `item.get("text", "")` followed by use in `"\n".join`: `none` models
an exception (`AttributeError` on a non-mapping item, `TypeError` on a
non-string joined value) caught by the bare `except`. -/
def itemText : Json → Option String
  | .obj kvs =>
    match kvs.lookup "text" with
    | none => some ""
    | some (.str s) => some s
    | some _ => none
  | _ => none

/-- Body of the `try` in client.py 89-90: `data = json.loads(raw)` has already
succeeded with value `j`; join the items' text fields, `none` on any exception. -/
def joinTextItems : Json → Option String
  | .arr items => (items.mapM itemText).map (String.intercalate "\n")
  | _ => none

/-- Embedding of the `try/except` of client.py 88-92: parse the raw tool output and join the
labeled text items, falling back to the raw output verbatim on any failure. -/
def parseToolOutput (jsonLoads : String → Option Json) (raw : String) : String :=
  match jsonLoads raw with
  | some j => (joinTextItems j).getD raw
  | none => raw

/-- Processing of one reply part (client.py 80-96): execute a requested tool
call and fold its result in as `"[Called name: result]"`, or collect the
part's text when it is non-empty (Python truthiness skips `None` and `""`). -/
def processPart (session : Session) (jsonLoads : String → Option Json)
    (part : Part) : Except String (List String) :=
  match part.function_call with
  | some fc =>
    match normalizeArgsJson jsonLoads fc.args with
    | .error e => .error e
    | .ok args =>
      match session.callTool fc.name args with
      | .error e => .error e
      | .ok tr =>
        match tr.content.get? 0 with
        | none => .error "IndexError"
        | some item =>
          let raw := item.text.getD ""
          let list_result := parseToolOutput jsonLoads raw
          .ok ["[Called " ++ fc.name ++ ": " ++ list_result ++ "]"]
  | none =>
    match part.text with
    | some t => if t = "" then .ok [] else .ok [t]
    | none => .ok []

/-- Processing of one candidate (client.py 76-101): iterate the parts when the
`parts` attribute is present and non-empty (`if parts:`), otherwise fall back
to the flat `getattr(cand.content, 'text', '')`, kept only when truthy. -/
def processCand (session : Session) (jsonLoads : String → Option Json)
    (cand : Candidate) : Except String (List String) :=
  match cand.content.parts with
  | some ps =>
    if ps.isEmpty then
      .ok (match cand.content.text with
           | some t => if t = "" then [] else [t]
           | none => [])
    else
      match ps.mapM (processPart session jsonLoads) with
      | .error e => .error e
      | .ok chunks => .ok chunks.flatten
  | none =>
    .ok (match cand.content.text with
         | some t => if t = "" then [] else [t]
         | none => [])

/-- Embedding of `MCPClient.process_query` (client.py 43-110): build the tool schema from the
session's catalog, perform the single model round-trip, walk every candidate's
parts executing tool calls inline, and return the joined, stripped text with
that one reply's token counts. -/
def MCPClient.process_query (session : Session)
    (svc : List String → Response) (jsonLoads : String → Option Json)
    (query : String) : Except String TextResult :=
  match buildToolDescs session.tools with
  | .error e => .error e
  | .ok _tool_descs =>
    let response := svc [query]
    let um := response.usage_metadata
    let prompt_tokens := um.prompt_token_count
    let completion_tokens := um.candidates_token_count
    match response.candidates.mapM (processCand session jsonLoads) with
    | .error e => .error e
    | .ok chunks =>
      .ok { text := pyStrip (String.intercalate "\n" chunks.flatten)
            prompt_token_count := prompt_tokens
            response_token_count := completion_tokens }

/-! ## client.py: connect target resolution -/

/-- A transport resource allocation performed by `connect_to_server`
(spawning the stdio transport for the resolved command). -/
inductive ConnectEvent where
  | allocated (command : String) (args : List String)
deriving DecidableEq

/-- The dispatch rule of `MCPClient.connect_to_server` (client.py 24-31). -/
def resolve_target (target : String) : Except String (String × List String) :=
  if target = "fs-mcp-server" then .ok ("fs-mcp-server", [])
  else if strEndsWith target ".py" then .ok ("python", [target])
  else if strEndsWith target ".js" then .ok ("node", [target])
  else .error "Server script must be a .py, .js, or fs-mcp-server."

/-- Embedding of `MCPClient.connect_to_server` (client.py 22-41): resolve the target first;
only on success are transport resources allocated. The returned list is the
trace of allocations performed. -/
def connect_to_server (target : String) : List ConnectEvent × Except String Unit :=
  match resolve_target target with
  | .error e => ([], .error e)
  | .ok (command, args) => ([.allocated command args], .ok ())

/-! ## client3.py: SimpleChatClient -/

/-- Embedding of `SimpleChatClient.process_query` (client3.py 20-43): one model round-trip,
returning `candidates[0].content.parts[0].text` and that reply's token counts. -/
def SimpleChatClient.process_query (svc : List String → Response)
    (query : String) : Except String OptTextResult :=
  let response := svc [query]
  let um := response.usage_metadata
  match firstPart response with
  | .error e => .error e
  | .ok p =>
    .ok { text := p.text
          prompt_token_count := um.prompt_token_count
          response_token_count := um.candidates_token_count }

/-! ## Chat loops -/

/-- How the read-query/print-answer loop ends: a quit/exit token, exhausted
input (`input()` raising `EOFError`), or an uncaught error escaping the loop. -/
inductive LoopExit where
  | quit
  | eof
  | crashed (e : String)
deriving DecidableEq

/-- The token-usage line printed after each answer. -/
def tokenLine (p r : Nat) : String :=
  "\n[Tokens used: " ++ toString (p + r) ++ " (prompt " ++ toString p ++
    ", response " ++ toString r ++ ")]"

/-- Python `print` of a possibly absent string (`None` prints as `"None"`). -/
def renderOptText : Option String → String
  | some t => t
  | none => "None"

/-- Embedding of `MCPClient.chat_loop` (client.py 112-131) over a list of input lines:
strip, exit on a case-insensitive quit/exit token, otherwise process the query
inside `try/except`, printing the error and continuing on failure. Returns the
printed lines and how the loop ended. -/
def MCPClient.chat_loop (proc : String → Except String TextResult) :
    List String → List String × LoopExit
  | [] => ([], .eof)
  | line :: rest =>
    let q := pyStrip line
    if pyLower q = "quit" ∨ pyLower q = "exit" then ([], .quit)
    else
      match proc q with
      | .ok out =>
        let printed := ["\n" ++ out.text,
                        tokenLine out.prompt_token_count out.response_token_count]
        let (ls, ex) := MCPClient.chat_loop proc rest
        (printed ++ ls, ex)
      | .error e =>
        let (ls, ex) := MCPClient.chat_loop proc rest
        (("\nError: " ++ e) :: ls, ex)

/-- Embedding of `SimpleChatClient.chat_loop` (client3.py 45-59): same read/print loop but
with no `try/except` — an error raised by `process_query` escapes the loop. -/
def SimpleChatClient.chat_loop (proc : String → Except String OptTextResult) :
    List String → List String × LoopExit
  | [] => ([], .eof)
  | line :: rest =>
    let q := pyStrip line
    if pyLower q = "quit" ∨ pyLower q = "exit" then ([], .quit)
    else
      match proc q with
      | .ok out =>
        let printed := ["\n" ++ renderOptText out.text,
                        tokenLine out.prompt_token_count out.response_token_count]
        let (ls, ex) := SimpleChatClient.chat_loop proc rest
        (printed ++ ls, ex)
      | .error e => ([], .crashed e)

/-! ## Specification-side definitions

The next definitions follow the wording of the specification, not the source;
they exist to be compared against the embedded code. -/

/-- Modelled from the spec (§8.2): the sequence of model replies observed
within one `GeminiClient.process_query` call, in order, for comparing the
returned usage counts against the per-round-trip sums. -/
def specRoundTrips (svc : Nat → List String → Response)
    (jsonLoads : String → Option Json) (resolve : String → AbsPath)
    (base : AbsPath) (fs : FileSys) (query : String) : List Response :=
  let response := svc 0 [query]
  match firstPart response with
  | .error _ => [response]
  | .ok msg =>
    match msg.function_call with
    | none => [response]
    | some fc =>
      match normalizeArgs jsonLoads fc.args with
      | .error _ => [response]
      | .ok args =>
        match dispatchLocal resolve base fs fc.name args with
        | .error _ => [response]
        | .ok (result, _) => [response, svc 1 [dumpsNameResult fc.name result]]

/-- Sum of the reported prompt units over a sequence of replies. -/
def promptSum (rs : List Response) : Nat :=
  (rs.map (fun r => r.usage_metadata.prompt_token_count)).sum

/-- Sum of the reported response units over a sequence of replies. -/
def responseSum (rs : List Response) : Nat :=
  (rs.map (fun r => r.usage_metadata.candidates_token_count)).sum

/-- The texts one part contributes when it carries no function call: its
non-empty `text` field, if any. -/
def partTexts (p : Part) : List String :=
  match p.text with
  | some t => if t = "" then [] else [t]
  | none => []

/-- The text a candidate's flat `text` field contributes when the structured
parts are absent or empty. -/
def flatTexts (cand : Candidate) : List String :=
  match cand.content.text with
  | some t => if t = "" then [] else [t]
  | none => []

/-- Modelled from the spec (§8.5): the texts a text-only candidate contributes,
in order. -/
def specCandTexts (cand : Candidate) : List String :=
  match cand.content.parts with
  | some ps => if ps.isEmpty then flatTexts cand else ps.flatMap partTexts
  | none => flatTexts cand

/-- Modelled from the spec (§8.5): the texts a text-only reply contributes, in
order — every non-empty `text` field of every part of every candidate. -/
def specCollectTexts (r : Response) : List String :=
  (r.candidates.map specCandTexts).flatten

/-! ## Claim theorems -/

/-- C6: the connect dispatch maps the alias `"fs-mcp-server"` to a zero-argument
command, a `.py` path to `python` and a `.js` path to `node` with the path as
sole argument, and fails with the unsupported-target error — allocating no
transport resources — on every target matching none of the recognized forms. -/
theorem c6_connect_dispatch (target : String)
    (halias : target ≠ "fs-mcp-server")
    (hpy : strEndsWith target ".py" = false)
    (hjs : strEndsWith target ".js" = false) :
    connect_to_server target =
      ([], .error "Server script must be a .py, .js, or fs-mcp-server.") ∧
    connect_to_server "fs-mcp-server" =
      ([ConnectEvent.allocated "fs-mcp-server" []], .ok ()) ∧
    (∀ t : String, t ≠ "fs-mcp-server" → strEndsWith t ".py" = true →
      connect_to_server t = ([ConnectEvent.allocated "python" [t]], .ok ())) ∧
    (∀ t : String, t ≠ "fs-mcp-server" → strEndsWith t ".py" = false →
      strEndsWith t ".js" = true →
      connect_to_server t = ([ConnectEvent.allocated "node" [t]], .ok ())) := by
  refine ⟨?_, ?_, ?_, ?_⟩
  · simp [connect_to_server, resolve_target, halias, hpy, hjs]
  · rfl
  · intro t h1 h2
    simp [connect_to_server, resolve_target, h1, h2]
  · intro t h1 h2 h3
    simp [connect_to_server, resolve_target, h1, h2, h3]

/-- C6 witness: the scenario target `"tool.rb"` is rejected with no allocation,
and the three recognized forms dispatch as stated. -/
theorem c6_connect_dispatch_witness :
    connect_to_server "tool.rb" =
      ([], .error "Server script must be a .py, .js, or fs-mcp-server.") ∧
    connect_to_server "fs-mcp-server" =
      ([ConnectEvent.allocated "fs-mcp-server" []], .ok ()) ∧
    connect_to_server "server.py" =
      ([ConnectEvent.allocated "python" ["server.py"]], .ok ()) ∧
    connect_to_server "server.js" =
      ([ConnectEvent.allocated "node" ["server.js"]], .ok ()) := by
  obtain ⟨h1, h2, h3, h4⟩ :=
    c6_connect_dispatch "tool.rb" (by decide) (by decide) (by decide)
  exact ⟨h1, h2, h3 "server.py" (by decide) (by decide),
         h4 "server.js" (by decide) (by decide) (by decide)⟩

/-- C8: client.py's handling of raw tool output: when it parses as a list of
labeled text items the folded result is the newline-join of the items' text
fields, and on any parse failure — unparseable string, or a parsed value of any
other shape — the raw output is used verbatim; the computation is a total
function, so no exception escapes the loop. -/
theorem c8_tool_output_parsing (jsonLoads : String → Option Json) (raw : String) :
    (∀ items texts, jsonLoads raw = some (.arr items) →
      items.mapM itemText = some texts →
      parseToolOutput jsonLoads raw = String.intercalate "\n" texts) ∧
    (jsonLoads raw = none → parseToolOutput jsonLoads raw = raw) ∧
    (∀ j, jsonLoads raw = some j → joinTextItems j = none →
      parseToolOutput jsonLoads raw = raw) := by
  refine ⟨?_, ?_, ?_⟩
  · intro items texts h1 h2
    simp only [parseToolOutput, h1, joinTextItems]
    rw [h2]
    rfl
  · intro h
    simp [parseToolOutput, h]
  · intro j h1 h2
    simp [parseToolOutput, h1, h2]

/-- C8 witness: a concrete output parsing as two labeled text items joins to
`"a\nb"`, and a concrete unparseable output is passed through verbatim. -/
theorem c8_tool_output_parsing_witness :
    parseToolOutput
      (fun s => if s = "x"
        then some (.arr [.obj [("text", Json.str "a")], .obj [("text", Json.str "b")]])
        else none) "x" = "a\nb" ∧
    parseToolOutput
      (fun s => if s = "x"
        then some (.arr [.obj [("text", Json.str "a")], .obj [("text", Json.str "b")]])
        else none) "raw stuff" = "raw stuff" := by
  constructor
  · exact (c8_tool_output_parsing _ "x").1
      [.obj [("text", Json.str "a")], .obj [("text", Json.str "b")]]
      ["a", "b"] rfl rfl
  · exact (c8_tool_output_parsing _ "raw stuff").2.1 rfl

lemma normalize_path_outside {resolve : String → AbsPath} {base : AbsPath}
    {fp : String} (h : base.isPrefixOf (resolve fp) = false) :
    normalize_path resolve base fp =
      .error ("Access denied: " ++ pathStr (resolve fp)) := by
  simp [normalize_path, h]

lemma normalize_path_inside {resolve : String → AbsPath} {base : AbsPath}
    {fp : String} (h : base.isPrefixOf (resolve fp) = true) :
    normalize_path resolve base fp = .ok (resolve fp) := by
  simp [normalize_path, h]

lemma FileSys.lookup_set_ne (fs : FileSys) {p q : AbsPath} (d : FileData)
    (h : p ≠ q) : (fs.set p d).lookup q = fs.lookup q := by
  have : (q == p) = false := by
    simp only [beq_eq_false_iff_ne]
    exact fun hq => h hq.symm
  simp [FileSys.set, FileSys.lookup, List.lookup, this]

/-- C10: path confinement of the local tools. If the expanded and resolved path
lies outside the base directory, each of `read_file`, `write_file` and
`search_file` raises the `PermissionError` and performs no file access (its
outcome is the same on every filesystem). Moreover every file the operations
touch resolves inside the base directory: `read_file` depends only on the
filesystem's contents under the base, `write_file` leaves every path outside
the base untouched, and every path `search_file` returns lies under the base. -/
theorem c10_path_confinement (resolve : String → AbsPath) (base : AbsPath)
    (fp : String) :
    (base.isPrefixOf (resolve fp) = false →
      (∀ fs, read_file resolve base fs fp =
        .error ("Access denied: " ++ pathStr (resolve fp))) ∧
      (∀ fs content, write_file resolve base fs fp content =
        .error ("Access denied: " ++ pathStr (resolve fp))) ∧
      (∀ fs ext, search_file resolve base fs ext fp =
        .error ("Access denied: " ++ pathStr (resolve fp)))) ∧
    (∀ fs fs' : FileSys,
      (∀ p : AbsPath, base.isPrefixOf p = true → fs.lookup p = fs'.lookup p) →
      read_file resolve base fs fp = read_file resolve base fs' fp) ∧
    (∀ fs content msg fs2,
      write_file resolve base fs fp content = .ok (msg, fs2) →
      ∀ p : AbsPath, base.isPrefixOf p = false → fs2.lookup p = fs.lookup p) ∧
    (∀ fs ext r, search_file resolve base fs ext fp = .ok r →
      ∀ s ∈ r, ∃ p : AbsPath, s = pathStr p ∧ base.isPrefixOf p = true) := by
  refine ⟨?_, ?_, ?_, ?_⟩
  · intro h
    refine ⟨?_, ?_, ?_⟩
    · intro fs
      simp [read_file, normalize_path_outside h]
    · intro fs content
      simp [write_file, normalize_path_outside h]
    · intro fs ext
      simp [search_file, normalize_path_outside h]
  · intro fs fs' hagree
    by_cases h : base.isPrefixOf (resolve fp) = true
    · simp only [read_file, normalize_path_inside h, hagree (resolve fp) h]
    · rw [Bool.not_eq_true] at h
      simp [read_file, normalize_path_outside h]
  · intro fs content msg fs2 hok p hout
    by_cases h : base.isPrefixOf (resolve fp) = true
    · have hne : resolve fp ≠ p := by
        intro he
        rw [he] at h
        rw [h] at hout
        simp at hout
      simp only [write_file, normalize_path_inside h] at hok
      cases hfd : fs.lookup (resolve fp) with
      | none =>
        rw [hfd] at hok
        cases hok
        exact FileSys.lookup_set_ne fs _ hne
      | some d =>
        cases d with
        | textual s =>
          rw [hfd] at hok
          cases hok
          exact FileSys.lookup_set_ne fs _ hne
        | binary b => rw [hfd] at hok; cases hok
    · rw [Bool.not_eq_true] at h
      rw [write_file, normalize_path_outside h] at hok
      cases hok
  · intro fs ext r hok s hs
    by_cases h : base.isPrefixOf (resolve fp) = true
    · simp only [search_file, normalize_path_inside h] at hok
      cases hok
      simp only [List.mem_map] at hs
      obtain ⟨kv, hkv, rfl⟩ := hs
      refine ⟨kv.1, rfl, ?_⟩
      have hfilt := (List.mem_filter.mp hkv).2
      simp only [Bool.and_eq_true] at hfilt
      have h1 : (resolve fp) <+: kv.1 :=
        List.isPrefixOf_iff_prefix.mp hfilt.1.1
      have h2 : base <+: (resolve fp) := List.isPrefixOf_iff_prefix.mp h
      exact List.isPrefixOf_iff_prefix.mpr (h2.trans h1)
    · rw [Bool.not_eq_true] at h
      rw [search_file, normalize_path_outside h] at hok
      cases hok

/-- C10 witness: with the base directory `/home/user`, a path resolving to
`/etc/passwd` is denied by all three operations on a concrete filesystem, with
no file access; and a path resolving under the base reads the same on two
filesystems agreeing under the base. -/
theorem c10_path_confinement_witness :
    (read_file (fun _ => ["etc", "passwd"]) ["home", "user"]
        ⟨[(["etc", "passwd"], .textual "root")]⟩ "../../etc/passwd" =
      .error "Access denied: /etc/passwd") ∧
    (write_file (fun _ => ["etc", "passwd"]) ["home", "user"]
        ⟨[(["etc", "passwd"], .textual "root")]⟩ "../../etc/passwd" "x" =
      .error "Access denied: /etc/passwd") ∧
    (search_file (fun _ => ["etc", "passwd"]) ["home", "user"]
        ⟨[(["etc", "passwd"], .textual "root")]⟩ ".py" "../../etc/passwd" =
      .error "Access denied: /etc/passwd") := by
  obtain ⟨hout, -, -, -⟩ :=
    c10_path_confinement (fun _ => ["etc", "passwd"]) ["home", "user"]
      "../../etc/passwd"
  obtain ⟨h1, h2, h3⟩ := hout (by decide)
  exact ⟨h1 _, h2 _ "x", h3 _ ".py"⟩

/-- C9 counterexample: the claim fails on `SimpleChatClient.chat_loop`
(client3.py has no `try/except`): an error raised while processing the first
query terminates the loop — with input remaining — instead of being printed
and the loop continuing. -/
theorem c9_cex_client3_loop_crashes :
    SimpleChatClient.chat_loop (fun _ => .error "boom")
      ["first query", "second query"] = ([], .crashed "boom") := by
  rfl

/-- C9 (amended): both chat loops exit exactly when the stripped, lowercased
input is `"quit"` or `"exit"`; on an error raised while processing a query,
`MCPClient.chat_loop` prints the error and continues with the remaining
input, while `SimpleChatClient.chat_loop` terminates with that error. -/
theorem c9_chat_loop_amended (proc : String → Except String TextResult)
    (proc3 : String → Except String OptTextResult)
    (line : String) (rest : List String) :
    ((pyLower (pyStrip line) = "quit" ∨ pyLower (pyStrip line) = "exit") →
      MCPClient.chat_loop proc (line :: rest) = ([], .quit) ∧
      SimpleChatClient.chat_loop proc3 (line :: rest) = ([], .quit)) ∧
    (¬(pyLower (pyStrip line) = "quit" ∨ pyLower (pyStrip line) = "exit") →
      (∀ e, proc (pyStrip line) = .error e →
        MCPClient.chat_loop proc (line :: rest) =
          (("\nError: " ++ e) :: (MCPClient.chat_loop proc rest).1,
           (MCPClient.chat_loop proc rest).2)) ∧
      (∀ e, proc3 (pyStrip line) = .error e →
        SimpleChatClient.chat_loop proc3 (line :: rest) = ([], .crashed e))) := by
  constructor
  · intro h
    constructor
    · simp only [MCPClient.chat_loop]
      rw [if_pos h]
    · simp only [SimpleChatClient.chat_loop]
      rw [if_pos h]
  · intro h
    constructor
    · intro e he
      simp only [MCPClient.chat_loop]
      rw [if_neg h, he]
    · intro e he
      simp only [SimpleChatClient.chat_loop]
      rw [if_neg h, he]

/-- C9 witness: a concrete run — `"QUIT "` exits both loops, and with a query
processor that raises `"E"`, `MCPClient`'s loop prints the error and reaches
end of input while `SimpleChatClient`'s loop terminates with the error. -/
theorem c9_chat_loop_amended_witness :
    MCPClient.chat_loop (fun _ => .error "E") ["QUIT "] = ([], .quit) ∧
    SimpleChatClient.chat_loop (fun _ => .error "E") ["QUIT "] = ([], .quit) ∧
    MCPClient.chat_loop (fun _ => .error "E") ["hi"] = (["\nError: E"], .eof) ∧
    SimpleChatClient.chat_loop (fun _ => .error "E") ["hi"] = ([], .crashed "E") := by
  obtain ⟨hq1, hq2⟩ :=
    (c9_chat_loop_amended (fun _ => .error "E") (fun _ => .error "E")
      "QUIT " []).1 (Or.inl rfl)
  obtain ⟨he1, he2⟩ :=
    (c9_chat_loop_amended (fun _ => .error "E") (fun _ => .error "E")
      "hi" []).2 (by decide)
  exact ⟨hq1, hq2, he1 "E" rfl, he2 "E" rfl⟩

/-- C1 counterexample: with a model service that requests a tool call in every
reply, `GeminiClient.process_query` does terminate, but it returns no
best-effort text and no partial/degraded indication — the result's `text` is
absent (`None`) and the result carries only the two usage counters. -/
theorem c1_cex_no_degraded_indication :
    GeminiClient.process_query
      (fun _ _ =>
        ⟨[⟨⟨some [⟨some ⟨"search_file", .struct [("extension", Json.str ".py")]⟩,
                   none⟩], none⟩⟩], ⟨3, 4⟩⟩)
      (fun _ => none) (fun _ => ["w"]) ["w"] ⟨[]⟩ "hi" =
      .ok ({ text := none, prompt_token_count := 6, response_token_count := 8 },
           ⟨[]⟩) := by
  rfl

/-- C1 (amended): every `process_query` terminates after a fixed maximum number
of model round-trips — `MCPClient` and `SimpleChatClient` consult the model
service exactly once, and `GeminiClient` consults it at most twice (round
indices 0 and 1) — but when the cap is reached without final text the result
carries whatever the follow-up reply's first part's `text` holds (possibly
absent), with no partial/degraded indication. Formally: the outcome depends
only on the service's behavior at those round-trips. -/
theorem c1_round_trip_bound :
    (∀ (session : Session) (svc svc' : List String → Response)
        (jsonLoads : String → Option Json) (query : String),
      svc [query] = svc' [query] →
      MCPClient.process_query session svc jsonLoads query =
        MCPClient.process_query session svc' jsonLoads query) ∧
    (∀ (svc svc' : Nat → List String → Response)
        (jsonLoads : String → Option Json) (resolve : String → AbsPath)
        (base : AbsPath) (fs : FileSys) (query : String),
      svc 0 = svc' 0 → svc 1 = svc' 1 →
      GeminiClient.process_query svc jsonLoads resolve base fs query =
        GeminiClient.process_query svc' jsonLoads resolve base fs query) ∧
    (∀ (svc svc' : List String → Response) (query : String),
      svc [query] = svc' [query] →
      SimpleChatClient.process_query svc query =
        SimpleChatClient.process_query svc' query) := by
  refine ⟨?_, ?_, ?_⟩
  · intro session svc svc' jsonLoads query h
    simp only [MCPClient.process_query, h]
  · intro svc svc' jsonLoads resolve base fs query h0 h1
    simp only [GeminiClient.process_query, h0, h1]
  · intro svc svc' query h
    simp only [SimpleChatClient.process_query, h]

/-- C1 witness: two services that agree on the single request this query makes
yield identical `SimpleChatClient.process_query` outcomes, even though they
differ elsewhere. -/
theorem c1_round_trip_bound_witness :
    SimpleChatClient.process_query
      (fun _ => ⟨[⟨⟨some [⟨none, some "hello"⟩], none⟩⟩], ⟨1, 2⟩⟩) "q" =
    SimpleChatClient.process_query
      (fun ls => if ls = ["q"]
        then ⟨[⟨⟨some [⟨none, some "hello"⟩], none⟩⟩], ⟨1, 2⟩⟩
        else ⟨[], ⟨9, 9⟩⟩) "q" :=
  c1_round_trip_bound.2.2 _ _ "q" rfl

/-- C2: usage additivity. Whenever `process_query` returns, the reported
prompt and response unit counts equal the exact sums of the units reported by
each model round-trip the call performed — the two rounds of `GeminiClient`
(via the observed round-trip sequence `specRoundTrips`), and the single round
of `MCPClient`. The accumulator starts fresh at each call: the result is a
pure function of that call's round-trips alone. -/
theorem c2_usage_additivity :
    (∀ (svc : Nat → List String → Response) (jsonLoads : String → Option Json)
        (resolve : String → AbsPath) (base : AbsPath) (fs : FileSys)
        (query : String) (r : OptTextResult) (fs2 : FileSys),
      GeminiClient.process_query svc jsonLoads resolve base fs query =
        .ok (r, fs2) →
      r.prompt_token_count =
        promptSum (specRoundTrips svc jsonLoads resolve base fs query) ∧
      r.response_token_count =
        responseSum (specRoundTrips svc jsonLoads resolve base fs query)) ∧
    (∀ (session : Session) (svc : List String → Response)
        (jsonLoads : String → Option Json) (query : String) (r : TextResult),
      MCPClient.process_query session svc jsonLoads query = .ok r →
      r.prompt_token_count = promptSum [svc [query]] ∧
      r.response_token_count = responseSum [svc [query]]) := by
  constructor
  · intro svc jsonLoads resolve base fs query r fs2 h
    cases hfp : firstPart (svc 0 [query]) with
    | error e =>
      simp only [GeminiClient.process_query, hfp] at h
      exact Except.noConfusion h
    | ok msg =>
      cases hfc : msg.function_call with
      | none =>
        simp only [GeminiClient.process_query, hfp, hfc, Except.ok.injEq,
          Prod.mk.injEq] at h
        obtain ⟨hr, -⟩ := h
        subst hr
        simp [specRoundTrips, hfp, hfc, promptSum, responseSum]
      | some fc =>
        cases hna : normalizeArgs jsonLoads fc.args with
        | error e =>
          simp only [GeminiClient.process_query, hfp, hfc, hna] at h
          exact Except.noConfusion h
        | ok args =>
          cases hdl : dispatchLocal resolve base fs fc.name args with
          | error e =>
            simp only [GeminiClient.process_query, hfp, hfc, hna, hdl] at h
            exact Except.noConfusion h
          | ok pr =>
            obtain ⟨result, fsx⟩ := pr
            cases hfp2 : firstPart (svc 1 [dumpsNameResult fc.name result]) with
            | error e =>
              simp only [GeminiClient.process_query, hfp, hfc, hna, hdl,
                hfp2] at h
              exact Except.noConfusion h
            | ok fmsg =>
              simp only [GeminiClient.process_query, hfp, hfc, hna, hdl, hfp2,
                Except.ok.injEq, Prod.mk.injEq] at h
              obtain ⟨hr, -⟩ := h
              subst hr
              simp [specRoundTrips, hfp, hfc, hna, hdl, promptSum, responseSum]
  · intro session svc jsonLoads query r h
    cases hbt : buildToolDescs session.tools with
    | error e =>
      simp only [MCPClient.process_query, hbt] at h
      exact Except.noConfusion h
    | ok ds =>
      cases hmc : (svc [query]).candidates.mapM (processCand session jsonLoads) with
      | error e =>
        simp only [MCPClient.process_query, hbt, hmc] at h
        exact Except.noConfusion h
      | ok chunks =>
        simp only [MCPClient.process_query, hbt, hmc, Except.ok.injEq] at h
        subst h
        simp [promptSum, responseSum]

/-- C2 witness: a concrete two-round run of `GeminiClient.process_query` whose
returned counts equal the sums over the observed round-trips. -/
theorem c2_usage_additivity_witness :
    GeminiClient.process_query
      (fun i _ => if i = 0
        then ⟨[⟨⟨some [⟨some ⟨"nope", .struct []⟩, none⟩], none⟩⟩], ⟨3, 4⟩⟩
        else ⟨[⟨⟨some [⟨none, some "done"⟩], none⟩⟩], ⟨10, 20⟩⟩)
      (fun _ => none) (fun _ => ["w"]) ["w"] ⟨[]⟩ "hi" =
      .ok ({ text := some "done", prompt_token_count := 13,
             response_token_count := 24 }, ⟨[]⟩) ∧
    (13 = promptSum (specRoundTrips
      (fun i _ => if i = 0
        then ⟨[⟨⟨some [⟨some ⟨"nope", .struct []⟩, none⟩], none⟩⟩], ⟨3, 4⟩⟩
        else ⟨[⟨⟨some [⟨none, some "done"⟩], none⟩⟩], ⟨10, 20⟩⟩)
      (fun _ => none) (fun _ => ["w"]) ["w"] ⟨[]⟩ "hi") ∧
     24 = responseSum (specRoundTrips
      (fun i _ => if i = 0
        then ⟨[⟨⟨some [⟨some ⟨"nope", .struct []⟩, none⟩], none⟩⟩], ⟨3, 4⟩⟩
        else ⟨[⟨⟨some [⟨none, some "done"⟩], none⟩⟩], ⟨10, 20⟩⟩)
      (fun _ => none) (fun _ => ["w"]) ["w"] ⟨[]⟩ "hi")) :=
  ⟨rfl, c2_usage_additivity.1 _ _ _ _ _ _
    { text := some "done", prompt_token_count := 13, response_token_count := 24 }
    ⟨[]⟩ rfl⟩

lemma mapM_except_singleton {α β : Type} {f : α → Except String β} {a : α} :
    List.mapM f [a] = (f a).map (fun b => [b]) := by
  cases hfa : f a <;>
    simp [List.mapM.loop, hfa, Except.map, Except.bind, Bind.bind,
      Except.pure, Pure.pure]

lemma processPart_no_fc (session : Session) (jsonLoads : String → Option Json)
    (part : Part) (h : part.function_call = none) :
    processPart session jsonLoads part = .ok (partTexts part) := by
  cases hp : part.text with
  | none => simp [processPart, h, partTexts, hp]
  | some t =>
    by_cases ht : t = "" <;> simp [processPart, h, partTexts, hp, ht]

lemma mapM_processPart_no_fc (session : Session)
    (jsonLoads : String → Option Json) (ps : List Part)
    (h : ∀ p ∈ ps, p.function_call = none) :
    ps.mapM (processPart session jsonLoads) = .ok (ps.map partTexts) := by
  induction ps with
  | nil => rfl
  | cons p ps ih =>
    rw [List.mapM_cons,
      processPart_no_fc session jsonLoads p (h p (List.mem_cons_self p ps)),
      ih (fun q hq => h q (List.mem_cons_of_mem p hq))]
    rfl

lemma processCand_no_fc (session : Session) (jsonLoads : String → Option Json)
    (cand : Candidate)
    (h : ∀ ps, cand.content.parts = some ps → ∀ p ∈ ps, p.function_call = none) :
    processCand session jsonLoads cand = .ok (specCandTexts cand) := by
  cases hp : cand.content.parts with
  | none => simp [processCand, specCandTexts, hp, flatTexts]
  | some ps =>
    by_cases hemp : ps.isEmpty
    · simp [processCand, specCandTexts, hp, hemp, flatTexts]
    · rw [processCand, specCandTexts]
      simp only [hp, hemp]
      rw [mapM_processPart_no_fc session jsonLoads ps (h ps hp)]
      simp [List.flatMap_def, Bool.false_eq_true, if_neg]

lemma mapM_processCand_no_fc (session : Session)
    (jsonLoads : String → Option Json) (cs : List Candidate)
    (h : ∀ c ∈ cs, ∀ ps, c.content.parts = some ps →
      ∀ p ∈ ps, p.function_call = none) :
    cs.mapM (processCand session jsonLoads) = .ok (cs.map specCandTexts) := by
  induction cs with
  | nil => rfl
  | cons c cs ih =>
    rw [List.mapM_cons,
      processCand_no_fc session jsonLoads c (h c (List.mem_cons_self c cs)),
      ih (fun d hd => h d (List.mem_cons_of_mem c hd))]
    rfl

/-- C5 counterexample: a first reply containing only the text `"hello\n"` (and
no function call) is returned by `MCPClient.process_query` as `"hello"` — the
text is joined and stripped of surrounding whitespace, not returned verbatim. -/
theorem c5_cex_text_not_verbatim :
    MCPClient.process_query ⟨[], fun _ _ => .error "x"⟩
      (fun _ => ⟨[⟨⟨some [⟨none, some "hello\n"⟩], none⟩⟩], ⟨1, 2⟩⟩)
      (fun _ => none) "hi" =
      .ok { text := "hello", prompt_token_count := 1,
            response_token_count := 2 } ∧
    "hello" ≠ "hello\n" := by
  exact ⟨rfl, by decide⟩

/-- C5 (amended): when the first model reply contains only text and no function
call, `process_query` performs exactly one model round-trip and returns with
usage equal to that single reply's reported units; the returned text is the
first part's `text` verbatim for `GeminiClient` and `SimpleChatClient`, and
the reply's texts joined with newlines then stripped of surrounding whitespace
for `MCPClient`. -/
theorem c5_single_round_text_reply :
    (∀ (session : Session) (svc : List String → Response)
        (jsonLoads : String → Option Json) (query : String)
        (ds : List ToolDesc),
      buildToolDescs session.tools = .ok ds →
      (∀ c ∈ (svc [query]).candidates, ∀ ps, c.content.parts = some ps →
        ∀ p ∈ ps, p.function_call = none) →
      MCPClient.process_query session svc jsonLoads query =
        .ok { text := pyStrip (String.intercalate "\n"
                        (specCollectTexts (svc [query])))
              prompt_token_count :=
                (svc [query]).usage_metadata.prompt_token_count
              response_token_count :=
                (svc [query]).usage_metadata.candidates_token_count }) ∧
    (∀ (svc : Nat → List String → Response) (jsonLoads : String → Option Json)
        (resolve : String → AbsPath) (base : AbsPath) (fs : FileSys)
        (query : String) (msg : Part),
      firstPart (svc 0 [query]) = .ok msg → msg.function_call = none →
      GeminiClient.process_query svc jsonLoads resolve base fs query =
        .ok ({ text := msg.text
               prompt_token_count :=
                 (svc 0 [query]).usage_metadata.prompt_token_count
               response_token_count :=
                 (svc 0 [query]).usage_metadata.candidates_token_count }, fs)) ∧
    (∀ (svc : List String → Response) (query : String) (p : Part),
      firstPart (svc [query]) = .ok p →
      SimpleChatClient.process_query svc query =
        .ok { text := p.text
              prompt_token_count :=
                (svc [query]).usage_metadata.prompt_token_count
              response_token_count :=
                (svc [query]).usage_metadata.candidates_token_count }) := by
  refine ⟨?_, ?_, ?_⟩
  · intro session svc jsonLoads query ds hds hnofc
    rw [MCPClient.process_query, hds]
    simp only
    rw [mapM_processCand_no_fc session jsonLoads (svc [query]).candidates hnofc]
    rfl
  · intro svc jsonLoads resolve base fs query msg hfp hfc
    simp only [GeminiClient.process_query, hfp, hfc]
  · intro svc query p hfp
    simp only [SimpleChatClient.process_query, hfp]

/-- C5 witness: a concrete text-only first reply for each of the three clients,
returning after the single round-trip with that reply's units. -/
theorem c5_single_round_text_reply_witness :
    MCPClient.process_query ⟨[], fun _ _ => .error "x"⟩
      (fun _ => ⟨[⟨⟨some [⟨none, some "hi there"⟩], none⟩⟩], ⟨5, 7⟩⟩)
      (fun _ => none) "q" =
      .ok { text := "hi there", prompt_token_count := 5,
            response_token_count := 7 } ∧
    GeminiClient.process_query
      (fun _ _ => ⟨[⟨⟨some [⟨none, some "hi there"⟩], none⟩⟩], ⟨5, 7⟩⟩)
      (fun _ => none) (fun _ => ["w"]) ["w"] ⟨[]⟩ "q" =
      .ok ({ text := some "hi there", prompt_token_count := 5,
             response_token_count := 7 }, ⟨[]⟩) ∧
    SimpleChatClient.process_query
      (fun _ => ⟨[⟨⟨some [⟨none, some "hi there"⟩], none⟩⟩], ⟨5, 7⟩⟩) "q" =
      .ok { text := some "hi there", prompt_token_count := 5,
            response_token_count := 7 } := by
  refine ⟨?_, ?_, ?_⟩
  · have h := c5_single_round_text_reply.1 ⟨[], fun _ _ => .error "x"⟩
      (fun _ => ⟨[⟨⟨some [⟨none, some "hi there"⟩], none⟩⟩], ⟨5, 7⟩⟩)
      (fun _ => none) "q" [] rfl (by
        intro c hc ps hps p hp
        simp only [List.mem_singleton] at hc
        subst hc
        simp only [Candidate.mk.injEq] at hps
        cases hps
        simp only [List.mem_singleton] at hp
        subst hp
        rfl)
    exact h.trans (by rfl)
  · exact c5_single_round_text_reply.2.1
      (fun _ _ => ⟨[⟨⟨some [⟨none, some "hi there"⟩], none⟩⟩], ⟨5, 7⟩⟩)
      (fun _ => none) (fun _ => ["w"]) ["w"] ⟨[]⟩ "q" _ rfl rfl
  · exact c5_single_round_text_reply.2.2
      (fun _ => ⟨[⟨⟨some [⟨none, some "hi there"⟩], none⟩⟩], ⟨5, 7⟩⟩) "q" _ rfl

/-- C7 counterexample: the claim fails on `GeminiClient.process_query`
(client2.py line 106): a reply whose candidate content lacks the structured
`parts` — even one carrying a flat `text` field — makes it raise (`None`
subscripting, a `TypeError`) instead of falling back. -/
theorem c7_cex_client2_requires_parts :
    GeminiClient.process_query
      (fun _ _ => ⟨[⟨⟨none, some "hello"⟩⟩], ⟨1, 1⟩⟩)
      (fun _ => none) (fun _ => ["w"]) ["w"] ⟨[]⟩ "hi" =
      .error "TypeError" := by
  rfl

/-- C7 (amended): `MCPClient.process_query` tolerates a candidate lacking the
structured `parts` field by falling back to the flat `text` field, and prefers
the structured parts when they are present and non-empty — the flat field is
then ignored; `GeminiClient.process_query`, however, fails on a reply lacking
`parts`. -/
theorem c7_parts_fallback_amended :
    (∀ (session : Session) (svc : List String → Response)
        (jsonLoads : String → Option Json) (query : String)
        (ds : List ToolDesc) (t : String) (u : UsageMetadata),
      buildToolDescs session.tools = .ok ds →
      svc [query] = ⟨[⟨⟨none, some t⟩⟩], u⟩ → t ≠ "" →
      MCPClient.process_query session svc jsonLoads query =
        .ok { text := pyStrip t
              prompt_token_count := u.prompt_token_count
              response_token_count := u.candidates_token_count }) ∧
    (∀ (session : Session) (jsonLoads : String → Option Json) (query : String)
        (ps : List Part) (tfa tfb : Option String) (u : UsageMetadata),
      ps ≠ [] →
      MCPClient.process_query session
          (fun _ => ⟨[⟨⟨some ps, tfa⟩⟩], u⟩) jsonLoads query =
        MCPClient.process_query session
          (fun _ => ⟨[⟨⟨some ps, tfb⟩⟩], u⟩) jsonLoads query) := by
  constructor
  · intro session svc jsonLoads query ds t u hds hsvc ht
    rw [MCPClient.process_query, hds]
    simp only
    rw [hsvc]
    rw [mapM_except_singleton]
    have hpc : processCand session jsonLoads ⟨⟨none, some t⟩⟩ =
        .ok (flatTexts ⟨⟨none, some t⟩⟩) := by
      simp [processCand, flatTexts]
    rw [hpc]
    have hsingle : String.intercalate "\n" [t] = t := rfl
    simp [Except.map, flatTexts, ht, hsingle]
  · intro session jsonLoads query ps tfa tfb u hne
    cases hds : buildToolDescs session.tools with
    | error e => simp [MCPClient.process_query, hds]
    | ok ds =>
      have hemp : ps.isEmpty = false := by
        cases ps with
        | nil => exact absurd rfl hne
        | cons p l => rfl
      have hpc : processCand session jsonLoads ⟨⟨some ps, tfa⟩⟩ =
          processCand session jsonLoads ⟨⟨some ps, tfb⟩⟩ := by
        simp [processCand, hemp]
      simp only [MCPClient.process_query, hds]
      rw [mapM_except_singleton, mapM_except_singleton, hpc]

/-- C7 witness: concrete runs — a candidate with no `parts` and flat text
`" fallback "` yields the stripped fallback text, and two replies identical
but for the flat field yield identical outcomes when parts are present. -/
theorem c7_parts_fallback_amended_witness :
    MCPClient.process_query ⟨[], fun _ _ => .error "x"⟩
      (fun _ => ⟨[⟨⟨none, some " fallback "⟩⟩], ⟨2, 3⟩⟩)
      (fun _ => none) "q" =
      .ok { text := "fallback", prompt_token_count := 2,
            response_token_count := 3 } ∧
    MCPClient.process_query ⟨[], fun _ _ => .error "x"⟩
      (fun _ => ⟨[⟨⟨some [⟨none, some "body"⟩], some "flat a"⟩⟩], ⟨2, 3⟩⟩)
      (fun _ => none) "q" =
    MCPClient.process_query ⟨[], fun _ _ => .error "x"⟩
      (fun _ => ⟨[⟨⟨some [⟨none, some "body"⟩], some "flat b"⟩⟩], ⟨2, 3⟩⟩)
      (fun _ => none) "q" := by
  constructor
  · have h := c7_parts_fallback_amended.1 ⟨[], fun _ _ => .error "x"⟩
      (fun _ => ⟨[⟨⟨none, some " fallback "⟩⟩], ⟨2, 3⟩⟩)
      (fun _ => none) "q" [] " fallback " ⟨2, 3⟩ rfl rfl (by decide)
    exact h.trans (by rfl)
  · exact c7_parts_fallback_amended.2 ⟨[], fun _ _ => .error "x"⟩
      (fun _ => none) "q" [⟨none, some "body"⟩] (some "flat a") (some "flat b")
      ⟨2, 3⟩ (List.cons_ne_nil _ _)

/-- C4 counterexample: a failing tool invocation is not converted into a
textual placeholder — with a model requesting `read_file` on a path resolving
outside the allowed base, `GeminiClient.process_query` raises the
`PermissionError` out of the orchestration loop instead of continuing. -/
theorem c4_cex_tool_failure_raises :
    GeminiClient.process_query
      (fun _ _ =>
        ⟨[⟨⟨some [⟨some ⟨"read_file", .struct [("file_path", .str "../secret")]⟩,
                   none⟩], none⟩⟩], ⟨1, 1⟩⟩)
      (fun _ => none)
      (fun s => if s = "../secret" then ["etc", "secret"] else ["w", s])
      ["w"] ⟨[]⟩ "hi" =
      .error "Access denied: /etc/secret" := by
  rfl

/-- C4 (amended): a request naming a tool absent from the dispatch table does
not crash the loop — `GeminiClient.process_query` synthesizes the placeholder
`"Unknown function: <name>"`, folds it into the follow-up request, and
continues to the follow-up round-trip; but an exception raised by a tool's own
execution (such as the `PermissionError` of the counterexample) propagates out
of `process_query`, aborting the query. -/
theorem c4_unknown_tool_placeholder
    (svc : Nat → List String → Response) (jsonLoads : String → Option Json)
    (resolve : String → AbsPath) (base : AbsPath) (fs : FileSys)
    (query : String) (msg : Part) (fc : FunctionCall)
    (args : List (String × Json))
    (hfp : firstPart (svc 0 [query]) = .ok msg)
    (hfc : msg.function_call = some fc)
    (hna : normalizeArgs jsonLoads fc.args = .ok args)
    (h1 : fc.name ≠ "read_file") (h2 : fc.name ≠ "write_file")
    (h3 : fc.name ≠ "search_file") :
    dispatchLocal resolve base fs fc.name args =
      .ok (.s ("Unknown function: " ++ fc.name), fs) ∧
    (∀ fmsg : Part,
      firstPart (svc 1 [dumpsNameResult fc.name
          (.s ("Unknown function: " ++ fc.name))]) = .ok fmsg →
      GeminiClient.process_query svc jsonLoads resolve base fs query =
        .ok ({ text := fmsg.text
               prompt_token_count :=
                 (svc 0 [query]).usage_metadata.prompt_token_count +
                 (svc 1 [dumpsNameResult fc.name
                   (.s ("Unknown function: " ++ fc.name))]).usage_metadata.prompt_token_count
               response_token_count :=
                 (svc 0 [query]).usage_metadata.candidates_token_count +
                 (svc 1 [dumpsNameResult fc.name
                   (.s ("Unknown function: " ++ fc.name))]).usage_metadata.candidates_token_count },
             fs)) := by
  have hdl : dispatchLocal resolve base fs fc.name args =
      .ok (.s ("Unknown function: " ++ fc.name), fs) := by
    simp [dispatchLocal, h1, h2, h3]
  refine ⟨hdl, ?_⟩
  intro fmsg hfmsg
  simp only [GeminiClient.process_query, hfp, hfc, hna, hdl, hfmsg]

/-- C4 witness: a concrete request for the unregistered tool `"frobnicate"` is
folded back as the placeholder and the loop continues to the follow-up reply. -/
theorem c4_unknown_tool_placeholder_witness :
    dispatchLocal (fun _ => ["w"]) ["w"] ⟨[]⟩ "frobnicate" [] =
      .ok (.s "Unknown function: frobnicate", ⟨[]⟩) ∧
    GeminiClient.process_query
      (fun i _ => if i = 0
        then ⟨[⟨⟨some [⟨some ⟨"frobnicate", .struct []⟩, none⟩], none⟩⟩], ⟨1, 2⟩⟩
        else ⟨[⟨⟨some [⟨none, some "ok then"⟩], none⟩⟩], ⟨10, 20⟩⟩)
      (fun _ => none) (fun _ => ["w"]) ["w"] ⟨[]⟩ "hi" =
      .ok ({ text := some "ok then", prompt_token_count := 11,
             response_token_count := 22 }, ⟨[]⟩) := by
  obtain ⟨ha, hb⟩ := c4_unknown_tool_placeholder
    (fun i _ => if i = 0
      then ⟨[⟨⟨some [⟨some ⟨"frobnicate", .struct []⟩, none⟩], none⟩⟩], ⟨1, 2⟩⟩
      else ⟨[⟨⟨some [⟨none, some "ok then"⟩], none⟩⟩], ⟨10, 20⟩⟩)
    (fun _ => none) (fun _ => ["w"]) ["w"] ⟨[]⟩ "hi"
    ⟨some ⟨"frobnicate", .struct []⟩, none⟩ ⟨"frobnicate", .struct []⟩ []
    rfl rfl rfl (by decide) (by decide) (by decide)
  exact ⟨ha, (hb ⟨none, some "ok then"⟩ rfl).trans (by rfl)⟩

/-- The fields of a JSON object, `[]` on any other value. -/
def Json.objFields : Json → List (String × Json)
  | .obj kvs => kvs
  | _ => []

/-- The `properties` entry of a tool's input schema is a mapping whose values
are themselves mappings (the shape on which the translator cannot raise). -/
def propsWellFormed (t : ToolInfo) : Prop :=
  ∃ kvs, dictGet t.inputSchema "properties" (.obj []) = .obj kvs ∧
    ∀ kv ∈ kvs, ∃ vm, kv.2 = Json.obj vm

/-- The translated image of one parameter entry. -/
def translatedParam (kv : String × Json) : String × (Json × Json) :=
  (kv.1, (dictGet kv.2.objFields "type" (.str "string"),
          dictGet kv.2.objFields "description" (.str "")))

lemma mapM_translate_params (kvs : List (String × Json))
    (h : ∀ kv ∈ kvs, ∃ vm, kv.2 = Json.obj vm) :
    kvs.mapM (fun kv =>
      match kv.2 with
      | Json.obj vm =>
        Except.ok (kv.1, (dictGet vm "type" (.str "string"),
                          dictGet vm "description" (.str "")))
      | _ => Except.error "AttributeError") =
    .ok (kvs.map translatedParam) := by
  induction kvs with
  | nil => rfl
  | cons kv rest ih =>
    obtain ⟨vm, hvm⟩ := h kv (List.mem_cons_self kv rest)
    rw [List.mapM_cons, hvm,
      ih (fun u hu => h u (List.mem_cons_of_mem kv hu))]
    simp [Except.bind, Bind.bind, Except.pure, Pure.pure,
      translatedParam, hvm, Json.objFields]

lemma translateTool_wf (t : ToolInfo) (h : propsWellFormed t) :
    translateTool t =
      .ok { name := t.name
            description := t.description
            ptype := dictGet t.inputSchema "type" (.str "object")
            properties :=
              (dictGet t.inputSchema "properties" (.obj [])).objFields.map
                translatedParam
            required := dictGet t.inputSchema "required" (.arr []) } := by
  obtain ⟨kvs, hkvs, hvals⟩ := h
  rw [translateTool]
  rw [hkvs]
  simp only [Except.bind, Bind.bind]
  rw [mapM_translate_params kvs hvals]
  simp [Json.objFields]

/-- C3 counterexample: the schema translation can fail — on a catalog whose
single tool maps `"properties"` to a non-mapping value, client.py's
comprehension calls `.items()` on it and raises, so the translation is not
total. -/
theorem c3_cex_translation_can_fail :
    buildToolDescs [⟨"t", "d", [("properties", .str "oops")]⟩] =
      .error "AttributeError" := by
  rfl

/-- C3 (amended): on every catalog whose parameter metadata is structurally a
mapping of mappings (or absent), the schema translation succeeds and emits for
each descriptor a declaration preserving its `name` and its `required` entry
exactly as given upstream, translating each parameter entry in order and
assigning the string kind to any parameter whose kind entry is missing;
a descriptor with non-mapping parameter metadata instead makes it raise. -/
theorem c3_schema_translation (tools : List ToolInfo)
    (h : ∀ t ∈ tools, propsWellFormed t) :
    (∃ ds, buildToolDescs tools = .ok ds ∧
      List.Forall₂ (fun (t : ToolInfo) (d : ToolDesc) =>
        d.name = t.name ∧
        d.required = dictGet t.inputSchema "required" (.arr []) ∧
        (∀ kvs, dictGet t.inputSchema "properties" (.obj []) = .obj kvs →
          d.properties = kvs.map translatedParam)) tools ds) ∧
    (∀ kv : String × Json, kv.2.objFields.lookup "type" = none →
      (translatedParam kv).2.1 = Json.str "string") := by
  constructor
  · induction tools with
    | nil => exact ⟨[], rfl, List.Forall₂.nil⟩
    | cons t ts ih =>
      obtain ⟨ds, hds, hfa⟩ := ih (fun u hu => h u (List.mem_cons_of_mem t hu))
      have ht := translateTool_wf t (h t (List.mem_cons_self t ts))
      refine ⟨{ name := t.name
                description := t.description
                ptype := dictGet t.inputSchema "type" (.str "object")
                properties :=
                  (dictGet t.inputSchema "properties" (.obj [])).objFields.map
                    translatedParam
                required := dictGet t.inputSchema "required" (.arr []) } :: ds,
              ?_, ?_⟩
      · rw [buildToolDescs, List.mapM_cons, ht]
        rw [show List.mapM translateTool ts = .ok ds from hds]
        rfl
      · refine List.Forall₂.cons ⟨rfl, rfl, ?_⟩ hfa
        intro kvs hk
        rw [hk]
        rfl
  · intro kv hk
    simp [translatedParam, dictGet, hk]

/-- C3 witness: a concrete one-tool catalog whose parameter `extension` has no
kind entry translates successfully, preserving name and required and assigning
the string kind by default. -/
theorem c3_schema_translation_witness :
    (∃ ds, buildToolDescs
        [⟨"search_file", "Search",
          [("type", Json.str "object"),
           ("properties", Json.obj
             [("extension", Json.obj [("description", Json.str "ext")])]),
           ("required", Json.arr [Json.str "extension"])]⟩] = .ok ds ∧
      List.Forall₂ (fun (t : ToolInfo) (d : ToolDesc) =>
        d.name = t.name ∧
        d.required = dictGet t.inputSchema "required" (.arr []) ∧
        (∀ kvs, dictGet t.inputSchema "properties" (.obj []) = .obj kvs →
          d.properties = kvs.map translatedParam))
        [⟨"search_file", "Search",
          [("type", Json.str "object"),
           ("properties", Json.obj
             [("extension", Json.obj [("description", Json.str "ext")])]),
           ("required", Json.arr [Json.str "extension"])]⟩] ds) ∧
    (∀ kv : String × Json, kv.2.objFields.lookup "type" = none →
      (translatedParam kv).2.1 = Json.str "string") :=
  c3_schema_translation _ (by
    intro t ht
    simp only [List.mem_singleton] at ht
    subst ht
    exact ⟨[("extension", Json.obj [("description", Json.str "ext")])], rfl,
      by
        intro kv hkv
        simp only [List.mem_singleton] at hkv
        subst hkv
        exact ⟨[("description", Json.str "ext")], rfl⟩⟩)

end BenchSuite
